import Mathlib

/-!
Shallow embedding of the safe-zone alarm logic of the LoRaWAN-UiTM repository.

Embedded source files:
  * `src/python-app/src/logic/alarm_rules.py` — the per-beacon decision engine
    `check_alarm_conditions`, the trigger sequence
    `trigger_alarm_with_sequence` and the stop/mute command.
  * `src/python-app/src/services/alarm_manager.py` — `AlarmManager`
    (`process_beacon_data`, `check_watchdog`, `build_alarm_trigger_cmd`,
    `trigger_alarm`, `silence_alarm`).
  * `src/python-app/src/services/event_manager.py` — `EventManager`
    (`subscribe`, `emit`).
  * `src/python-app/src/config/settings.py` — thresholds and
    `get_floor_by_device`.

Modelling conventions:
  * Python `time.time()` floats are modelled as `Int` timestamps; every claim
    speaks about integer seconds.  Within one evaluation the source calls
    `time.time()` up to twice (for `last_seen` and for `weak_start` /
    `duration`); the two calls happen microseconds apart and are modelled as
    the single evaluation time `now`.
  * Downlink publication (`mqtt_client.publish` inside
    `_send_downlink_to_device` / `send_downlink`) is modelled by returning the
    list of issued commands `(target_eui, hex_payload)` in order; the MQTT
    transport itself is out of scope of the spec's core.
  * The global dict `_beacon_states` keyed by the normalised minor id is
    modelled by passing the tracked beacon's own state in and out of the step
    functions; claims are all per-beacon.
  * Python string methods `.upper()`, `.lower()`, `.zfill(4)` are modelled
    character-wise (the ids contain no signs, so `zfill` is a plain left pad).
-/

/-- Python `str.upper()` on ASCII device ids: uppercase every character. -/
def pyUpper (s : String) : String := String.mk (s.data.map Char.toUpper)

/-- Python `str.lower()` on ASCII device ids: lowercase every character. -/
def pyLower (s : String) : String := String.mk (s.data.map Char.toLower)

/-- Python `str.zfill(4)` for unsigned id strings: left-pad with `'0'` to
width 4. -/
def zfill4 (s : String) : String :=
  if 4 ≤ s.length then s
  else String.mk (List.replicate (4 - s.length) '0') ++ s

/-- Hex digit of a value below 16, uppercase, as produced by Python
format specifier `02X`. -/
def hexDigit (n : Nat) : Char :=
  if n < 10 then Char.ofNat (48 + n) else Char.ofNat (55 + n)

/-- Python `f-string` formatting with `02X` of a message counter kept below
256 by the sources (`% 256` after every bump): two uppercase hex digits. -/
def toHexByte (n : Nat) : String := String.mk [hexDigit (n / 16 % 16), hexDigit (n % 16)]

/-! ### settings.py constants -/

/-- `settings.SAFE_RSSI_THRESHOLD = -60` (dBm). -/
def SAFE_RSSI_THRESHOLD : Int := -60

/-- `settings.DEBOUNCE_SECONDS = 5`. -/
def DEBOUNCE_SECONDS : Int := 5

/-- `settings.MAX_SILENCE_DURATION = 120`. -/
def MAX_SILENCE_DURATION : Int := 120

/-- `settings.ALARM_TARGET_EUI`. -/
def ALARM_TARGET_EUI : String := "70b3d5a4d31205ce"

/-- `settings.ALARM_OFF_HEX` — the mute/stop downlink. -/
def ALARM_OFF_HEX : String := "B0000100"

/-- `settings.ALARM_VOL_HIGH_HEX` — the unmute downlink. -/
def ALARM_VOL_HIGH_HEX : String := "B0000101"

/-! ### alarm_rules.py : ProximityConfig -/

/-- `ProximityConfig.RSSI_THRESHOLD = SAFE_RSSI_THRESHOLD`. -/
def RSSI_THRESHOLD : Int := SAFE_RSSI_THRESHOLD

/-- `ProximityConfig.DEBOUNCE_SECONDS = 5` (alarm_rules' own copy). -/
def PROXIMITY_DEBOUNCE_SECONDS : Int := 5

/-- `ProximityConfig.MACRO_SENSOR_EUI`. -/
def MACRO_SENSOR_EUI : String := "70b3d5a4d31205cf"

/-- `ProximityConfig.BEACON_MAJOR`. -/
def BEACON_MAJOR : String := "0010"

/-- `ProximityConfig.CMD_VOLUME_HIGH`. -/
def CMD_VOLUME_HIGH : String := "B0000104"

/-- `ProximityConfig.CMD_VOLUME_MUTE`. -/
def CMD_VOLUME_MUTE : String := "B0000100"

/-- `ProximityConfig.CMD_DURATION`. -/
def CMD_DURATION : String := "B0000206"

/-! ### Devices configuration (devices.json as read by settings.py) -/

/-- One entry of `devices.json`'s `floors` list. -/
structure Floor where
  id : String
  name : String
  macro_sensor_eui : String
  bluetooth_gateway_eui : String
deriving DecidableEq, Repr

/-- One entry of `devices.json`'s `beacons` list.  `home_floor_id` is
`none` when the beacon entry lacks the key (Python `dict.get` gives
`None`). -/
structure BeaconCfg where
  id : String
  home_floor_id : Option String
deriving DecidableEq, Repr

/-- The configuration returned by `settings.load_devices()`. -/
structure DevicesConfig where
  floors : List Floor
  beacons : List BeaconCfg
deriving DecidableEq, Repr

/-- `settings.get_floor_by_device`: first floor whose macro-sensor EUI or
bluetooth-gateway EUI equals the given EUI case-insensitively. -/
def get_floor_by_device (cfg : DevicesConfig) (device_eui : String) : Option Floor :=
  cfg.floors.find? (fun f =>
    pyLower f.macro_sensor_eui = pyLower device_eui ∨
    pyLower f.bluetooth_gateway_eui = pyLower device_eui)

/-! ### alarm_rules.py : state and helpers of check_alarm_conditions -/

/-- `alarm_rules.SecurityZone`. -/
inductive SecurityZone
  | SAFE
  | WEAK
  | ALARM
deriving DecidableEq, Repr

/-- The enum's `.value` string. -/
def SecurityZone.value : SecurityZone → String
  | .SAFE => "SAFE"
  | .WEAK => "WEAK"
  | .ALARM => "ALARM"

/-- `alarm_rules.BeaconState` (dataclass). -/
structure BeaconState where
  beacon_id : String
  zone : Option SecurityZone := none
  last_rssi : Int := -999
  last_seen : Int := 0
  weak_start : Option Int := none
  alarm_active : Bool := false
  initialized : Bool := false
  current_location : String := "Unknown"
deriving DecidableEq, Repr

/-- State newly created by `get_beacon_state` for an unseen id: the dataclass
defaults. -/
def freshBeaconState (beacon_id : String) : BeaconState := { beacon_id := beacon_id }

/-- Detection floor: `get_floor_by_device(gateway_eui)` guarded by Python
truthiness of `gateway_eui` (absent or empty means no lookup). -/
def detectionFloor (cfg : DevicesConfig) : Option String → Option Floor
  | none => none
  | some g => if g = "" then none else get_floor_by_device cfg g

/-- `detection_floor.get("id") if detection_floor else "UNKNOWN"`. -/
def detectionFloorId (cfg : DevicesConfig) (gw : Option String) : String :=
  match detectionFloor cfg gw with
  | some f => f.id
  | none => "UNKNOWN"

/-- `detection_floor.get("name", "Unknown Floor") if detection_floor else
"Unknown Floor"`. -/
def detectionFloorName (cfg : DevicesConfig) (gw : Option String) : String :=
  match detectionFloor cfg gw with
  | some f => f.name
  | none => "Unknown Floor"

/-- Home-floor lookup loop of `check_alarm_conditions`: the first beacon
entry whose uppercased id equals the normalised minor id.  `none` when no
entry matches (Python keeps the initial string `"UNKNOWN"`), `some h` when an
entry matches with `home_floor_id = h` (`h = none` models a missing key). -/
def homeFloorLookup (cfg : DevicesConfig) (minor : String) : Option (Option String) :=
  (cfg.beacons.find? (fun b => pyUpper b.id = minor)).map (·.home_floor_id)

/-- The value of the Python local `home_floor_id` after the lookup loop:
either the string `"UNKNOWN"`, or the matched entry's field (possibly
Python `None`, modelled `none`). -/
def homeFloorId (cfg : DevicesConfig) (minor : String) : Option String :=
  match homeFloorLookup cfg minor with
  | none => some "UNKNOWN"
  | some h => h

/-- Python `!=` between the string `detection_floor_id` and the
string-or-`None` local `home_floor_id`. -/
def pyStrNe (a : String) : Option String → Bool
  | none => true
  | some s => a ≠ s

/-- Python `home_floor_id != "UNKNOWN"` (true when `home_floor_id` is
`None`). -/
def notUnknown : Option String → Bool
  | none => true
  | some s => s ≠ "UNKNOWN"

/-- `is_wrong_floor`: both floors known (per the Python guard) and
different. -/
def is_wrong_floor (cfg : DevicesConfig) (gw : Option String) (minor : String) : Bool :=
  detectionFloorId cfg gw ≠ "UNKNOWN" ∧ notUnknown (homeFloorId cfg minor) ∧
    pyStrNe (detectionFloorId cfg gw) (homeFloorId cfg minor)

/-- `is_weak_signal = rssi < ProximityConfig.RSSI_THRESHOLD`. -/
def is_weak_signal (rssi : Int) : Bool := rssi < RSSI_THRESHOLD

/-- `is_safe_zone`: the if/elif/else chain — unsafe when wrong floor,
else unsafe when weak signal, else safe. -/
def is_safe_zone (cfg : DevicesConfig) (gw : Option String) (minor : String) (rssi : Int) : Bool :=
  !is_wrong_floor cfg gw minor && !is_weak_signal rssi

/-- `target_sensor_eui = detection_floor.get("macro_sensor_eui") if
detection_floor else ProximityConfig.MACRO_SENSOR_EUI`. -/
def targetSensorEui (cfg : DevicesConfig) (gw : Option String) : String :=
  match detectionFloor cfg gw with
  | some f => f.macro_sensor_eui
  | none => MACRO_SENSOR_EUI

/-- `_send_downlink_to_device`'s target fallback: `device_eui if device_eui
else ProximityConfig.MACRO_SENSOR_EUI`. -/
def resolveTarget (device_eui : String) : String :=
  if device_eui = "" then MACRO_SENSOR_EUI else device_eui

/-- One downlink issued through `_send_downlink_to_device`: resolved target
EUI and hex payload. -/
def sendDownlink (device_eui hex_cmd : String) : String × String :=
  (resolveTarget device_eui, hex_cmd)

/-- Hex payload of a search-beacon (`AC`) downlink: its first two characters
are `AC`.  All other payloads of the engine start with `B0`. -/
def isTriggerHex (hex : String) : Bool := hex.data.take 2 = ['A', 'C']

/-- Number of search-beacon downlinks in an issued command list — the count
of trigger sequences that reached the transport. -/
def countTriggers (cmds : List (String × String)) : Nat :=
  cmds.countP (fun c => isTriggerHex c.2)

/-- Number of stop/mute (`B0000100`) downlinks in an issued command list. -/
def countStops (cmds : List (String × String)) : Nat :=
  cmds.countP (fun c => c.2 = CMD_VOLUME_MUTE)

/-- Payload of the `beacon_state_change` event emitted by
`check_alarm_conditions` via `EventManager.emit`. -/
structure StateChangeEvent where
  beacon_id : String
  old_state : String
  new_state : String
  rssi : Int
deriving DecidableEq, Repr

/-- `alarm_rules.trigger_alarm_with_sequence`: three downlinks (volume 4,
duration, `AC` + msg-id + major + minor) plus the bumped global message
counter.  The two `time.sleep(COMMAND_DELAY)` pauses between the sends do not
change which commands are issued and are not modelled. -/
def trigger_alarm_with_sequence (ctr : Nat) (sensor_eui beacon_minor : String) :
    List (String × String) × Nat :=
  let minor := zfill4 (pyUpper beacon_minor)
  let msg_id := toHexByte ctr
  ([sendDownlink sensor_eui CMD_VOLUME_HIGH,
    sendDownlink sensor_eui CMD_DURATION,
    sendDownlink sensor_eui ("AC" ++ msg_id ++ BEACON_MAJOR ++ minor)],
   (ctr + 1) % 256)

/-- Result of one `check_alarm_conditions` evaluation: the updated beacon
state, the updated global message counter, the downlinks issued (in order),
the `beacon_state_change` events emitted, and the returned string. -/
structure EvalResult where
  state : BeaconState
  counter : Nat
  commands : List (String × String)
  events : List StateChangeEvent
  result : String
deriving DecidableEq, Repr

/-- `alarm_rules.check_alarm_conditions`, shallowly embedded.  `st0` is the
entry of the global `_beacon_states` table for the normalised minor id
(`freshBeaconState` on first sight), `ctr` the global `_msg_id_counter`,
`now` the evaluation time. -/
def check_alarm_conditions (cfg : DevicesConfig) (ctr : Nat) (st0 : BeaconState)
    (rssi : Int) (minor_id : String) (gateway_eui : Option String) (now : Int) : EvalResult :=
  let minor := zfill4 (pyUpper minor_id)
  let st1 : BeaconState := { st0 with last_rssi := rssi, last_seen := now }
  let old_zone := st1.zone
  let floor_name := detectionFloorName cfg gateway_eui
  let st2 : BeaconState := { st1 with current_location := floor_name }
  let target := targetSensorEui cfg gateway_eui
  if st2.initialized = false then
    { state := { st2 with
        initialized := true, zone := some .SAFE, weak_start := none,
        current_location := floor_name },
      counter := ctr,
      commands := [sendDownlink target CMD_VOLUME_MUTE],
      events := [],
      result := "SAFE" }
  else if is_safe_zone cfg gateway_eui minor rssi then
    let silenced := st2.alarm_active || !st2.initialized
    let st3 : BeaconState :=
      if silenced then { st2 with alarm_active := false, initialized := true } else st2
    let st4 : BeaconState := { st3 with
      zone := some .SAFE, weak_start := none, initialized := true }
    { state := st4,
      counter := ctr,
      commands := if silenced then [sendDownlink target CMD_VOLUME_MUTE] else [],
      events :=
        match old_zone with
        | none => []
        | some z =>
          if some z ≠ st4.zone then
            [{ beacon_id := minor, old_state := z.value, new_state := "SAFE", rssi := rssi }]
          else [],
      result := "SAFE" }
  else
    match st2.weak_start with
    | none =>
      let st3 : BeaconState := { st2 with weak_start := some now, zone := some .ALARM }
      { state := st3,
        counter := ctr,
        commands := [],
        events :=
          match old_zone with
          | none => []
          | some z =>
            if some z ≠ st3.zone then
              [{ beacon_id := minor, old_state := z.value, new_state := "ALARM", rssi := rssi }]
            else [],
        result := "ALARM" }
    | some ws =>
      let duration := now - ws
      if PROXIMITY_DEBOUNCE_SECONDS ≤ duration then
        if st2.alarm_active = false then
          let tr := trigger_alarm_with_sequence ctr target minor
          { state := { st2 with alarm_active := true, zone := some .ALARM },
            counter := tr.2,
            commands := tr.1,
            events := [],
            result := "ALARM" }
        else
          { state := { st2 with zone := some .ALARM },
            counter := ctr,
            commands := [],
            events := [],
            result := "ALARM" }
      else
        { state := st2, counter := ctr, commands := [], events := [], result := "ALARM" }

/-! ### Multi-step runs of the alarm_rules engine -/

/-- One observation fed to `check_alarm_conditions`: RSSI, reporting gateway
and evaluation time. -/
structure Obs where
  rssi : Int
  gw : Option String
  t : Int
deriving DecidableEq, Repr

/-- Engine-wide state threaded through consecutive evaluations for one
tracked beacon: its `_beacon_states` entry and the global
`_msg_id_counter`. -/
structure RSys where
  st : BeaconState
  counter : Nat
deriving DecidableEq, Repr

/-- One evaluation step on the engine-wide state. -/
def stepR (cfg : DevicesConfig) (minor_id : String) (s : RSys) (o : Obs) :
    RSys × List (String × String) :=
  let r := check_alarm_conditions cfg s.counter s.st o.rssi minor_id o.gw o.t
  (⟨r.state, r.counter⟩, r.commands)

/-- Run a list of observations through the engine, accumulating every issued
downlink in order. -/
def runR (cfg : DevicesConfig) (minor_id : String) (s : RSys) :
    List Obs → RSys × List (String × String)
  | [] => (s, [])
  | o :: os =>
    let p := stepR cfg minor_id s o
    let q := runR cfg minor_id p.1 os
    (q.1, p.2 ++ q.2)

/-- Engine-wide states reachable from a freshly created beacon entry by any
sequence of `check_alarm_conditions` evaluations. -/
inductive ReachR (cfg : DevicesConfig) (minor_id : String) : RSys → Prop
  | init : ReachR cfg minor_id ⟨freshBeaconState (zfill4 (pyUpper minor_id)), 0⟩
  | step (rssi : Int) (gw : Option String) (now : Int) {s : RSys} :
      ReachR cfg minor_id s →
      ReachR cfg minor_id (stepR cfg minor_id s ⟨rssi, gw, now⟩).1

/-! ### alarm_manager.py : AlarmManager -/

/-- The `state` string field of `alarm_manager.BeaconState` ranges over these
five values. -/
inductive MZone
  | UNKNOWN
  | SAFE
  | WEAK
  | ALARM
  | LOST
deriving DecidableEq, Repr

/-- `alarm_manager.BeaconState` (the manager's own per-beacon record, distinct
from the alarm_rules dataclass).  `name` is only display metadata and not
modelled. -/
structure MBeaconState where
  last_rssi : Int := 0
  last_seen : Int := 0
  state : MZone := .UNKNOWN
  weak_signal_start : Option Int := none
  alarm_triggered : Bool := false
deriving DecidableEq, Repr

/-- The manager-wide state touched by the claims: one tracked beacon's record
plus the instance counter `_msg_id_counter`. -/
structure MSys where
  st : MBeaconState := {}
  msg_id_counter : Nat := 0
deriving DecidableEq, Repr

/-- Python truthiness of the optional `app_id` argument (`None` and the empty
string are falsy). -/
def appTruthy : Option String → Bool
  | none => false
  | some s => s ≠ ""

/-- `AlarmManager.build_alarm_trigger_cmd`: `AC` + msg-id byte + minor,
bumping the instance counter mod 256.  `beacon_minor_hex or "0000"` is the
Python fallback for a falsy argument. -/
def build_alarm_trigger_cmd (ctr : Nat) (beacon_minor_hex : Option String) : String × Nat :=
  let minor0 :=
    match beacon_minor_hex with
    | none => "0000"
    | some s => if s = "" then "0000" else s
  let msg_id := toHexByte ctr
  let minor := zfill4 (pyUpper minor0)
  ("AC" ++ msg_id ++ minor, (ctr + 1) % 256)

/-- `AlarmManager.trigger_alarm`: no-op on a falsy `app_id`; otherwise the
unmute downlink followed by the built trigger command (with the counter bump
inside `build_alarm_trigger_cmd`).  The `time.sleep(1)` between the two sends
does not change which commands are issued. -/
def trigger_alarm (app_id : Option String) (ctr : Nat) (beacon_minor : Option String) :
    List String × Nat :=
  if appTruthy app_id then
    let built := build_alarm_trigger_cmd ctr beacon_minor
    ([ALARM_VOL_HIGH_HEX, built.1], built.2)
  else ([], ctr)

/-- `AlarmManager.silence_alarm`: the mute downlink, skipped on a falsy
`app_id`. -/
def silence_alarm (app_id : Option String) : List String :=
  if appTruthy app_id then [ALARM_OFF_HEX] else []

/-- Hex payloads counted as search-beacon triggers in a manager downlink
list. -/
def countTriggersM (cmds : List String) : Nat := cmds.countP isTriggerHex

/-- The per-beacon body of `AlarmManager.process_beacon_data` for one matched
watchlist beacon (`matched_id` already uppercased by the loop): updates the
beacon record and issues the silence or trigger downlinks. -/
def process_beacon_data (app_id : Option String) (sys : MSys) (rssi : Int) (now : Int)
    (matched_id : String) : MSys × List String :=
  let st1 : MBeaconState := { sys.st with last_rssi := rssi, last_seen := now }
  if SAFE_RSSI_THRESHOLD ≤ rssi then
    let st2 : MBeaconState := { st1 with weak_signal_start := none }
    if st2.state ≠ MZone.SAFE then
      if st2.alarm_triggered then
        ({ st := { st2 with alarm_triggered := false, state := .SAFE },
           msg_id_counter := sys.msg_id_counter },
         silence_alarm app_id)
      else
        ({ st := { st2 with state := .SAFE }, msg_id_counter := sys.msg_id_counter }, [])
    else
      ({ st := st2, msg_id_counter := sys.msg_id_counter }, [])
  else
    match st1.weak_signal_start with
    | none =>
      ({ st := { st1 with weak_signal_start := some now, state := .WEAK },
         msg_id_counter := sys.msg_id_counter }, [])
    | some ws =>
      let duration := now - ws
      if DEBOUNCE_SECONDS < duration then
        if st1.alarm_triggered = false then
          let tr := trigger_alarm app_id sys.msg_id_counter (some matched_id)
          ({ st := { st1 with alarm_triggered := true, state := .ALARM },
             msg_id_counter := tr.2 }, tr.1)
        else
          ({ st := st1, msg_id_counter := sys.msg_id_counter }, [])
      else
        ({ st := st1, msg_id_counter := sys.msg_id_counter }, [])

/-- The per-beacon body of `AlarmManager.check_watchdog` for one tracked
beacon id: skip never-seen beacons, transition silent ones to `LOST`, trigger
on the first such sweep only. -/
def check_watchdog (app_id : Option String) (sys : MSys) (beacon_id : String) (now : Int) :
    MSys × List String :=
  if sys.st.last_seen = 0 then (sys, [])
  else
    let diff := now - sys.st.last_seen
    if MAX_SILENCE_DURATION < diff then
      if sys.st.state ≠ MZone.LOST then
        if sys.st.alarm_triggered = false then
          let tr := trigger_alarm app_id sys.msg_id_counter (some beacon_id)
          ({ st := { sys.st with alarm_triggered := true, state := .LOST },
             msg_id_counter := tr.2 }, tr.1)
        else
          ({ st := { sys.st with state := .LOST },
             msg_id_counter := sys.msg_id_counter }, [])
      else (sys, [])
    else (sys, [])

/-- One interaction with the manager for the tracked beacon: an observation
delivered by `process_beacon_data` or a watchdog sweep. -/
inductive MOp
  | obs (rssi : Int) (now : Int)
  | sweep (now : Int)
deriving DecidableEq, Repr

/-- Dispatch one manager interaction. -/
def mStep (app_id : Option String) (beacon_id : String) (s : MSys) : MOp → MSys × List String
  | .obs rssi now => process_beacon_data app_id s rssi now beacon_id
  | .sweep now => check_watchdog app_id s beacon_id now

/-- Run a list of manager interactions, accumulating every issued downlink in
order. -/
def mRun (app_id : Option String) (beacon_id : String) (s : MSys) :
    List MOp → MSys × List String
  | [] => (s, [])
  | op :: ops =>
    let p := mStep app_id beacon_id s op
    let q := mRun app_id beacon_id p.1 ops
    (q.1, p.2 ++ q.2)

/-- Manager states reachable from the initial record (`UNKNOWN`, never seen,
no alarm) by any sequence of observation evaluations and watchdog sweeps. -/
inductive ReachM (app_id : Option String) (beacon_id : String) : MSys → Prop
  | init : ReachM app_id beacon_id {}
  | step (op : MOp) {s : MSys} :
      ReachM app_id beacon_id s →
      ReachM app_id beacon_id (mStep app_id beacon_id s op).1

/-! ### event_manager.py : EventManager -/

/-- A subscriber callback: consumes the payload, either returns normally or
raises (modelled as `Except.error` carrying the exception text). -/
def Callback (α β : Type) := α → Except β Unit

/-- The `_subscribers` dict of `EventManager`: event name to the list of
callbacks, in subscription order. -/
def Registry (α β : Type) := List (String × List (Callback α β))

/-- The callback list registered for an event name (empty when the name was
never subscribed to — `emit`'s `if event_name in cls._subscribers` guard). -/
def subscribersOf (reg : Registry α β) (event_name : String) : List (Callback α β) :=
  match reg.lookup event_name with
  | some l => l
  | none => []

/-- `EventManager.subscribe`: append the callback to the event's list,
creating the list on first use. -/
def subscribe (reg : Registry α β) (event_name : String) (cb : Callback α β) : Registry α β :=
  match reg with
  | [] => [(event_name, [cb])]
  | (k, l) :: rest =>
    if k = event_name then (k, l ++ [cb]) :: rest
    else (k, l) :: subscribe rest event_name cb

/-- `EventManager.emit`: call every subscriber of the event in list order,
passing the payload; a raising callback has its exception caught and logged
(the `Except.error` entry of the returned outcome trace) and the loop
continues.  The function itself is total: no subscriber failure reaches the
publisher. -/
def emit (reg : Registry α β) (event_name : String) (data : α) : List (Except β Unit) :=
  (subscribersOf reg event_name).map (fun cb => cb data)

/-! ### Characterisation lemmas for the branches of check_alarm_conditions -/

/-- A search-beacon payload is recognised whatever follows the `AC` head. -/
lemma isTriggerHex_append (s : String) : isTriggerHex ("AC" ++ s) = true := by
  simp [isTriggerHex, String.data_append]

/-- The trigger sequence contains exactly one search-beacon downlink. -/
lemma countTriggers_seq (ctr : Nat) (eui minor : String) :
    countTriggers (trigger_alarm_with_sequence ctr eui minor).1 = 1 := by
  simp [trigger_alarm_with_sequence, countTriggers, sendDownlink, List.countP,
    List.countP.go, isTriggerHex_append, isTriggerHex, CMD_VOLUME_HIGH, CMD_DURATION]

/-- Startup branch: an uninitialised beacon is forced `SAFE` with one mute
downlink. -/
lemma check_startup (cfg : DevicesConfig) (ctr : Nat) (st : BeaconState) (rssi : Int)
    (minor_id : String) (gw : Option String) (now : Int)
    (h : st.initialized = false) :
    check_alarm_conditions cfg ctr st rssi minor_id gw now =
      { state := { st with
          last_rssi := rssi, last_seen := now,
          current_location := detectionFloorName cfg gw,
          initialized := true, zone := some .SAFE, weak_start := none },
        counter := ctr,
        commands := [sendDownlink (targetSensorEui cfg gw) CMD_VOLUME_MUTE],
        events := [],
        result := "SAFE" } := by
  simp [check_alarm_conditions, h]

/-- Safe branch on an initialised beacon: immediate return to `SAFE`, mute
downlink exactly when the alarm was latched. -/
lemma check_safe (cfg : DevicesConfig) (ctr : Nat) (st : BeaconState) (rssi : Int)
    (minor_id : String) (gw : Option String) (now : Int)
    (h1 : st.initialized = true)
    (h2 : is_safe_zone cfg gw (zfill4 (pyUpper minor_id)) rssi = true) :
    check_alarm_conditions cfg ctr st rssi minor_id gw now =
      { state := { st with
          last_rssi := rssi, last_seen := now,
          current_location := detectionFloorName cfg gw,
          alarm_active := false, zone := some .SAFE, weak_start := none },
        counter := ctr,
        commands := if st.alarm_active then
            [sendDownlink (targetSensorEui cfg gw) CMD_VOLUME_MUTE] else [],
        events :=
          match st.zone with
          | none => []
          | some z =>
            if z ≠ SecurityZone.SAFE then
              [{ beacon_id := zfill4 (pyUpper minor_id), old_state := z.value,
                 new_state := "SAFE", rssi := rssi }]
            else [],
        result := "SAFE" } := by
  cases ha : st.alarm_active <;> cases hz : st.zone <;>
    simp [check_alarm_conditions, h1, h2, ha, hz]

/-- Unsafe branch, first unsafe observation: start the debounce window, no
downlink. -/
lemma check_unsafe_first (cfg : DevicesConfig) (ctr : Nat) (st : BeaconState) (rssi : Int)
    (minor_id : String) (gw : Option String) (now : Int)
    (h1 : st.initialized = true)
    (h2 : is_safe_zone cfg gw (zfill4 (pyUpper minor_id)) rssi = false)
    (hws : st.weak_start = none) :
    check_alarm_conditions cfg ctr st rssi minor_id gw now =
      { state := { st with
          last_rssi := rssi, last_seen := now,
          current_location := detectionFloorName cfg gw,
          weak_start := some now, zone := some .ALARM },
        counter := ctr,
        commands := [],
        events :=
          match st.zone with
          | none => []
          | some z =>
            if z ≠ SecurityZone.ALARM then
              [{ beacon_id := zfill4 (pyUpper minor_id), old_state := z.value,
                 new_state := "ALARM", rssi := rssi }]
            else [],
        result := "ALARM" } := by
  cases hz : st.zone <;> simp [check_alarm_conditions, h1, h2, hws, hz]

/-- Unsafe branch inside the debounce window: no downlink, no state change
beyond the telemetry fields. -/
lemma check_unsafe_pending (cfg : DevicesConfig) (ctr : Nat) (st : BeaconState) (rssi : Int)
    (minor_id : String) (gw : Option String) (now ws : Int)
    (h1 : st.initialized = true)
    (h2 : is_safe_zone cfg gw (zfill4 (pyUpper minor_id)) rssi = false)
    (hws : st.weak_start = some ws)
    (hlt : now - ws < PROXIMITY_DEBOUNCE_SECONDS) :
    check_alarm_conditions cfg ctr st rssi minor_id gw now =
      { state := { st with
          last_rssi := rssi, last_seen := now,
          current_location := detectionFloorName cfg gw },
        counter := ctr,
        commands := [],
        events := [],
        result := "ALARM" } := by
  simp [check_alarm_conditions, h1, h2, hws, not_le.mpr hlt]

/-- Unsafe branch past the debounce window, alarm not yet latched: issue the
trigger sequence, latch the alarm. -/
lemma check_unsafe_trigger (cfg : DevicesConfig) (ctr : Nat) (st : BeaconState) (rssi : Int)
    (minor_id : String) (gw : Option String) (now ws : Int)
    (h1 : st.initialized = true)
    (h2 : is_safe_zone cfg gw (zfill4 (pyUpper minor_id)) rssi = false)
    (hws : st.weak_start = some ws)
    (hge : PROXIMITY_DEBOUNCE_SECONDS ≤ now - ws)
    (hact : st.alarm_active = false) :
    check_alarm_conditions cfg ctr st rssi minor_id gw now =
      { state := { st with
          last_rssi := rssi, last_seen := now,
          current_location := detectionFloorName cfg gw,
          alarm_active := true, zone := some .ALARM },
        counter := (ctr + 1) % 256,
        commands := (trigger_alarm_with_sequence ctr (targetSensorEui cfg gw)
          (zfill4 (pyUpper minor_id))).1,
        events := [],
        result := "ALARM" } := by
  simp [check_alarm_conditions, h1, h2, hws, hge, hact, trigger_alarm_with_sequence]

/-- Unsafe branch past the debounce window with the alarm already latched: no
downlink at all. -/
lemma check_unsafe_active (cfg : DevicesConfig) (ctr : Nat) (st : BeaconState) (rssi : Int)
    (minor_id : String) (gw : Option String) (now ws : Int)
    (h1 : st.initialized = true)
    (h2 : is_safe_zone cfg gw (zfill4 (pyUpper minor_id)) rssi = false)
    (hws : st.weak_start = some ws)
    (hge : PROXIMITY_DEBOUNCE_SECONDS ≤ now - ws)
    (hact : st.alarm_active = true) :
    check_alarm_conditions cfg ctr st rssi minor_id gw now =
      { state := { st with
          last_rssi := rssi, last_seen := now,
          current_location := detectionFloorName cfg gw,
          zone := some .ALARM },
        counter := ctr,
        commands := [],
        events := [],
        result := "ALARM" } := by
  simp [check_alarm_conditions, h1, h2, hws, hge, hact]

/-! ### Small evaluation lemmas on command payloads -/

/-- The mute payload is not a search-beacon payload. -/
lemma isTriggerHex_mute : isTriggerHex CMD_VOLUME_MUTE = false := by decide

/-- A lone mute downlink contains no trigger. -/
lemma countTriggers_mute (t : String) :
    countTriggers [sendDownlink t CMD_VOLUME_MUTE] = 0 := by
  simp [countTriggers, sendDownlink, isTriggerHex_mute]

/-! ### Claim theorems -/

/-- C2: for every beacon, the very first observation processed for it (the
dataclass-default state created by `get_beacon_state`) returns `SAFE` and
issues exactly one stop/mute downlink, regardless of RSSI, gateway, devices
configuration or time, and leaves `initialized = true`, `weak_start = none`,
`alarm_active = false` (and `zone = SAFE`), with no event and no counter
bump. -/
theorem C2_startup_rule (cfg : DevicesConfig) (ctr : Nat) (minor_id : String)
    (rssi : Int) (gw : Option String) (now : Int) :
    (check_alarm_conditions cfg ctr (freshBeaconState (zfill4 (pyUpper minor_id)))
        rssi minor_id gw now).result = "SAFE" ∧
    (check_alarm_conditions cfg ctr (freshBeaconState (zfill4 (pyUpper minor_id)))
        rssi minor_id gw now).commands =
      [sendDownlink (targetSensorEui cfg gw) CMD_VOLUME_MUTE] ∧
    (check_alarm_conditions cfg ctr (freshBeaconState (zfill4 (pyUpper minor_id)))
        rssi minor_id gw now).state.initialized = true ∧
    (check_alarm_conditions cfg ctr (freshBeaconState (zfill4 (pyUpper minor_id)))
        rssi minor_id gw now).state.weak_start = none ∧
    (check_alarm_conditions cfg ctr (freshBeaconState (zfill4 (pyUpper minor_id)))
        rssi minor_id gw now).state.alarm_active = false ∧
    (check_alarm_conditions cfg ctr (freshBeaconState (zfill4 (pyUpper minor_id)))
        rssi minor_id gw now).state.zone = some SecurityZone.SAFE ∧
    (check_alarm_conditions cfg ctr (freshBeaconState (zfill4 (pyUpper minor_id)))
        rssi minor_id gw now).events = [] ∧
    (check_alarm_conditions cfg ctr (freshBeaconState (zfill4 (pyUpper minor_id)))
        rssi minor_id gw now).counter = ctr := by
  rw [check_startup _ _ _ _ _ _ _ rfl]
  simp [freshBeaconState]

/-- C3: one evaluation of `check_alarm_conditions` hands the transport a
search-beacon trigger exactly when `alarm_active` rises from `false` to
`true`; in particular no evaluation re-sends a trigger while the alarm is
already active, whatever the observation. -/
theorem C3_trigger_once_per_rising_edge (cfg : DevicesConfig) (ctr : Nat)
    (st : BeaconState) (rssi : Int) (minor_id : String) (gw : Option String) (now : Int) :
    countTriggers (check_alarm_conditions cfg ctr st rssi minor_id gw now).commands =
      if st.alarm_active = false ∧
         (check_alarm_conditions cfg ctr st rssi minor_id gw now).state.alarm_active = true
      then 1 else 0 := by
  by_cases hinit : st.initialized = false
  · rw [check_startup _ _ _ _ _ _ _ hinit]
    cases ha : st.alarm_active <;> simp [ha, countTriggers_mute]
  · rw [Bool.not_eq_false] at hinit
    by_cases hsz : is_safe_zone cfg gw (zfill4 (pyUpper minor_id)) rssi = true
    · rw [check_safe _ _ _ _ _ _ _ hinit hsz]
      cases ha : st.alarm_active <;>
        simp [ha, countTriggers, sendDownlink, isTriggerHex_mute]
    · rw [Bool.not_eq_true] at hsz
      cases hws : st.weak_start with
      | none =>
        rw [check_unsafe_first _ _ _ _ _ _ _ hinit hsz hws]
        cases ha : st.alarm_active <;> simp [ha, countTriggers]
      | some ws =>
        by_cases hd : PROXIMITY_DEBOUNCE_SECONDS ≤ now - ws
        · cases ha : st.alarm_active with
          | false =>
            rw [check_unsafe_trigger _ _ _ _ _ _ _ _ hinit hsz hws hd ha]
            simp [ha, countTriggers_seq]
          | true =>
            rw [check_unsafe_active _ _ _ _ _ _ _ _ hinit hsz hws hd ha]
            simp [ha, countTriggers]
        · rw [check_unsafe_pending _ _ _ _ _ _ _ _ hinit hsz hws (not_le.mp hd)]
          cases ha : st.alarm_active <;> simp [ha, countTriggers]

/-- C8: a safe observation on any initialised beacon — whatever unsafe or
pending state it is in — immediately clears `weak_start`, restores
`zone = SAFE` and unlatches the alarm in that single evaluation, and a
stop/mute downlink is issued exactly when `alarm_active` was `true`. -/
theorem C8_safe_not_debounced (cfg : DevicesConfig) (ctr : Nat) (st : BeaconState)
    (rssi : Int) (minor_id : String) (gw : Option String) (now : Int)
    (h1 : st.initialized = true)
    (h2 : is_safe_zone cfg gw (zfill4 (pyUpper minor_id)) rssi = true) :
    (check_alarm_conditions cfg ctr st rssi minor_id gw now).state.weak_start = none ∧
    (check_alarm_conditions cfg ctr st rssi minor_id gw now).state.zone =
      some SecurityZone.SAFE ∧
    (check_alarm_conditions cfg ctr st rssi minor_id gw now).state.alarm_active = false ∧
    (check_alarm_conditions cfg ctr st rssi minor_id gw now).result = "SAFE" ∧
    countStops (check_alarm_conditions cfg ctr st rssi minor_id gw now).commands =
      (if st.alarm_active then 1 else 0) ∧
    (st.alarm_active = false →
      (check_alarm_conditions cfg ctr st rssi minor_id gw now).commands = []) := by
  rw [check_safe _ _ _ _ _ _ _ h1 h2]
  cases ha : st.alarm_active <;>
    simp [ha, countStops, sendDownlink]

/-- C8 witness: a beacon latched in `ALARM` mid-debounce returns to `SAFE` on
one strong reading with exactly one stop command. -/
theorem C8_safe_not_debounced_witness :
    ({ beacon_id := "64AF", zone := some .ALARM, last_rssi := -90, last_seen := 6,
       weak_start := some 0, alarm_active := true, initialized := true,
       current_location := "Unknown Floor" } : BeaconState).initialized = true ∧
    is_safe_zone ⟨[], []⟩ none (zfill4 (pyUpper "64af")) (-50) = true ∧
    countStops (check_alarm_conditions ⟨[], []⟩ 1
      { beacon_id := "64AF", zone := some .ALARM, last_rssi := -90, last_seen := 6,
        weak_start := some 0, alarm_active := true, initialized := true,
        current_location := "Unknown Floor" } (-50) "64af" none 7).commands = 1 := by
  refine ⟨rfl, by decide, ?_⟩
  have h := C8_safe_not_debounced ⟨[], []⟩ 1
    { beacon_id := "64AF", zone := some .ALARM, last_rssi := -90, last_seen := 6,
      weak_start := some 0, alarm_active := true, initialized := true,
      current_location := "Unknown Floor" } (-50) "64af" none 7 rfl (by decide)
  simpa using h.2.2.2.2.1

/-- C10: processing a safe observation for a beacon already initialised,
`SAFE`, with no pending debounce and no latched alarm, issues no downlink,
emits no event, leaves the message counter alone, and changes only the
telemetry fields `last_rssi`, `last_seen` and `current_location`. -/
theorem C10_steady_safe_frame (cfg : DevicesConfig) (ctr : Nat) (st : BeaconState)
    (rssi : Int) (minor_id : String) (gw : Option String) (now : Int)
    (h1 : st.initialized = true) (hz : st.zone = some SecurityZone.SAFE)
    (ha : st.alarm_active = false) (hw : st.weak_start = none)
    (h2 : is_safe_zone cfg gw (zfill4 (pyUpper minor_id)) rssi = true) :
    (check_alarm_conditions cfg ctr st rssi minor_id gw now).commands = [] ∧
    (check_alarm_conditions cfg ctr st rssi minor_id gw now).events = [] ∧
    (check_alarm_conditions cfg ctr st rssi minor_id gw now).counter = ctr ∧
    (check_alarm_conditions cfg ctr st rssi minor_id gw now).result = "SAFE" ∧
    (check_alarm_conditions cfg ctr st rssi minor_id gw now).state =
      { st with last_rssi := rssi, last_seen := now,
                current_location := detectionFloorName cfg gw } := by
  rw [check_safe _ _ _ _ _ _ _ h1 h2]
  refine ⟨by simp [ha], by simp [hz], rfl, rfl, ?_⟩
  cases st
  simp_all

/-- C10 witness: a steady safe reading on a quiescent beacon is a pure
telemetry update. -/
theorem C10_steady_safe_frame_witness :
    (check_alarm_conditions ⟨[], []⟩ 3
      { beacon_id := "64AF", zone := some .SAFE, last_rssi := -50, last_seen := 1,
        weak_start := none, alarm_active := false, initialized := true,
        current_location := "Unknown Floor" } (-55) "64af" none 9).commands = [] ∧
    (check_alarm_conditions ⟨[], []⟩ 3
      { beacon_id := "64AF", zone := some .SAFE, last_rssi := -50, last_seen := 1,
        weak_start := none, alarm_active := false, initialized := true,
        current_location := "Unknown Floor" } (-55) "64af" none 9).events = [] := by
  have h := C10_steady_safe_frame ⟨[], []⟩ 3
    { beacon_id := "64AF", zone := some .SAFE, last_rssi := -50, last_seen := 1,
      weak_start := none, alarm_active := false, initialized := true,
      current_location := "Unknown Floor" } (-55) "64af" none 9 rfl rfl rfl rfl (by decide)
  exact ⟨h.1, h.2.1⟩

/-- Appending a subscriber for an event extends exactly that event's callback
list at its tail. -/
lemma subscribersOf_cons {α β : Type} (k : String) (l : List (Callback α β))
    (rest : Registry α β) (n : String) :
    subscribersOf ((k, l) :: rest) n = if n = k then l else subscribersOf rest n := by
  by_cases h : n = k
  · simp [subscribersOf, List.lookup, h]
  · have hb : (n == k) = false := by simp [h]
    simp [subscribersOf, List.lookup, h, hb]

lemma subscribersOf_subscribe {α β : Type} (reg : Registry α β) (n : String)
    (cb : Callback α β) :
    subscribersOf (subscribe reg n cb) n = subscribersOf reg n ++ [cb] := by
  induction reg with
  | nil => simp [subscribe, subscribersOf, List.lookup]
  | cons p rest ih =>
    obtain ⟨k, l⟩ := p
    by_cases hk : k = n
    · subst hk
      simp [subscribe, subscribersOf_cons]
    · have hnk : ¬n = k := fun h => hk h.symm
      simp [subscribe, if_neg hk, subscribersOf_cons, hnk, ih]

/-- C9: emitting an event applies every subscriber registered for that event
name to the payload, synchronously and in subscription order: the outcome
trace has one entry per subscriber, the i-th entry is exactly the i-th
subscriber's outcome on the payload (so an `Except.error` raised by an
earlier subscriber — caught and logged by `emit` — never prevents a later
subscriber from being invoked), `emit` itself is a total function so no
subscriber exception reaches the publisher, and a newly subscribed callback
runs after all previously subscribed ones. -/
theorem C9_event_bus_isolation {α β : Type} (reg : Registry α β) (name : String) (data : α) :
    (emit reg name data).length = (subscribersOf reg name).length ∧
    (∀ i : Nat, (emit reg name data).get? i =
      ((subscribersOf reg name).get? i).map (fun cb => cb data)) ∧
    (∀ cb : Callback α β,
      emit (subscribe reg name cb) name data = emit reg name data ++ [cb data]) := by
  refine ⟨by simp [emit], fun i => by simp [emit, List.get?_eq_getElem?, List.getElem?_map],
    fun cb => ?_⟩
  simp [emit, subscribersOf_subscribe]

/-- The unmute payload is not a search-beacon payload. -/
lemma isTriggerHex_unmute : isTriggerHex ALARM_VOL_HIGH_HEX = false := by decide

/-- A payload headed by the trigger prefix and two appended tails is a
search-beacon payload. -/
lemma isTriggerHex_AC2 (s t : String) : isTriggerHex ("AC" ++ s ++ t) = true := by
  simp [isTriggerHex, String.data_append]

/-- On a truthy application id, `AlarmManager.trigger_alarm` hands the
transport exactly one search-beacon payload. -/
lemma countTriggersM_trigger_alarm (app_id : Option String) (ctr : Nat)
    (minor : Option String) (happ : appTruthy app_id = true) :
    countTriggersM (trigger_alarm app_id ctr minor).1 = 1 := by
  simp [trigger_alarm, happ, build_alarm_trigger_cmd, countTriggersM,
    List.countP_cons, isTriggerHex_unmute, isTriggerHex_AC2]

/-- C6: one watchdog sweep over a beacon that has been seen (`last_seen ≠ 0`),
has been silent longer than `MAX_SILENCE_DURATION` and is not yet `LOST`,
always transitions it to `LOST` and leaves the alarm latched; the trigger is
issued exactly once when `alarm_triggered` was `false`, and not at all when
the alarm was already latched; every later sweep while the beacon stays
silent leaves the state untouched and issues nothing; and a sweep never
touches a beacon with `last_seen = 0`. -/
theorem C6_watchdog (app_id : Option String) (sys : MSys) (beacon_id : String)
    (now : Int)
    (h0 : sys.st.last_seen ≠ 0)
    (h1 : MAX_SILENCE_DURATION < now - sys.st.last_seen)
    (h2 : sys.st.state ≠ MZone.LOST)
    (happ : appTruthy app_id = true) :
    (check_watchdog app_id sys beacon_id now).1.st.state = MZone.LOST ∧
    (check_watchdog app_id sys beacon_id now).1.st.alarm_triggered = true ∧
    countTriggersM (check_watchdog app_id sys beacon_id now).2 =
      (if sys.st.alarm_triggered then 0 else 1) ∧
    (sys.st.alarm_triggered = true →
      (check_watchdog app_id sys beacon_id now).2 = []) ∧
    (∀ now2 : Int,
      check_watchdog app_id (check_watchdog app_id sys beacon_id now).1 beacon_id now2 =
        ((check_watchdog app_id sys beacon_id now).1, [])) ∧
    (∀ s2 : MSys, s2.st.last_seen = 0 →
      check_watchdog app_id s2 beacon_id now = (s2, [])) := by
  have hsecond : ∀ post : MSys, post.st.state = MZone.LOST →
      post.st.last_seen = sys.st.last_seen →
      ∀ now2 : Int, check_watchdog app_id post beacon_id now2 = (post, []) := by
    intro post hL hseen now2
    have hls : post.st.last_seen ≠ 0 := by rw [hseen]; exact h0
    by_cases hd : MAX_SILENCE_DURATION < now2 - post.st.last_seen <;>
      simp [check_watchdog, hls, hd, hL]
  cases ht : sys.st.alarm_triggered with
  | false =>
    have hstep : check_watchdog app_id sys beacon_id now =
        ({ st := { sys.st with alarm_triggered := true, state := .LOST },
           msg_id_counter := (trigger_alarm app_id sys.msg_id_counter (some beacon_id)).2 },
         (trigger_alarm app_id sys.msg_id_counter (some beacon_id)).1) := by
      simp [check_watchdog, h0, h1, h2, ht]
    refine ⟨by rw [hstep], by rw [hstep], ?_, fun hc => by simp [ht] at hc,
      fun now2 => ?_, fun s2 h => by simp [check_watchdog, h]⟩
    · rw [hstep]
      simpa using countTriggersM_trigger_alarm app_id sys.msg_id_counter (some beacon_id) happ
    · rw [hstep]
      refine hsecond _ ?_ ?_ now2 <;> rfl
  | true =>
    have hstep : check_watchdog app_id sys beacon_id now =
        ({ st := { sys.st with state := .LOST },
           msg_id_counter := sys.msg_id_counter }, []) := by
      simp [check_watchdog, h0, h1, h2, ht]
    refine ⟨by rw [hstep], by rw [hstep]; exact ht, by rw [hstep]; simp [ht, countTriggersM],
      fun _ => by rw [hstep], fun now2 => ?_, fun s2 h => by simp [check_watchdog, h]⟩
    rw [hstep]
    refine hsecond _ ?_ ?_ now2 <;> rfl

/-- C6 witness: an unlatched beacon seen at `t = 1` and swept at `t = 200`
goes `LOST` with one trigger, and a beacon already latched in `ALARM` and
equally silent goes `LOST` with no downlink. -/
theorem C6_watchdog_witness :
    (({ st := { last_rssi := -50, last_seen := 1, state := .SAFE,
                weak_signal_start := none, alarm_triggered := false },
        msg_id_counter := 0 } : MSys).st.last_seen ≠ 0) ∧
    (check_watchdog (some "app")
      { st := { last_rssi := -50, last_seen := 1, state := .SAFE,
                weak_signal_start := none, alarm_triggered := false },
        msg_id_counter := 0 } "64AF" 200).1.st.state = MZone.LOST ∧
    countTriggersM (check_watchdog (some "app")
      { st := { last_rssi := -50, last_seen := 1, state := .SAFE,
                weak_signal_start := none, alarm_triggered := false },
        msg_id_counter := 0 } "64AF" 200).2 = 1 ∧
    (check_watchdog (some "app")
      { st := { last_rssi := -90, last_seen := 1, state := .ALARM,
                weak_signal_start := some 0, alarm_triggered := true },
        msg_id_counter := 1 } "64AF" 200).1.st.state = MZone.LOST ∧
    (check_watchdog (some "app")
      { st := { last_rssi := -90, last_seen := 1, state := .ALARM,
                weak_signal_start := some 0, alarm_triggered := true },
        msg_id_counter := 1 } "64AF" 200).2 = [] := by
  have h := C6_watchdog (some "app")
    { st := { last_rssi := -50, last_seen := 1, state := .SAFE,
              weak_signal_start := none, alarm_triggered := false },
      msg_id_counter := 0 } "64AF" 200
    (by decide) (by decide) (by decide) (by decide)
  have h2 := C6_watchdog (some "app")
    { st := { last_rssi := -90, last_seen := 1, state := .ALARM,
              weak_signal_start := some 0, alarm_triggered := true },
      msg_id_counter := 1 } "64AF" 200
    (by decide) (by decide) (by decide) (by decide)
  exact ⟨by decide, h.1, by simpa using h.2.2.1, h2.1, h2.2.2.2.1 rfl⟩

/-! ### Characterisation lemmas for the branches of process_beacon_data -/

/-- Safe reading on an already-`SAFE` manager record: telemetry update only. -/
lemma m_safe_steady (app_id : Option String) (sys : MSys) (rssi now : Int) (id : String)
    (h : SAFE_RSSI_THRESHOLD ≤ rssi) (hz : sys.st.state = MZone.SAFE) :
    process_beacon_data app_id sys rssi now id =
      ({ st := { sys.st with last_rssi := rssi, last_seen := now, weak_signal_start := none },
         msg_id_counter := sys.msg_id_counter }, []) := by
  simp [process_beacon_data, h, hz]

/-- Safe reading on a non-`SAFE` record with no latched alarm: move to `SAFE`
silently. -/
lemma m_safe_clear (app_id : Option String) (sys : MSys) (rssi now : Int) (id : String)
    (h : SAFE_RSSI_THRESHOLD ≤ rssi) (hz : sys.st.state ≠ MZone.SAFE)
    (ht : sys.st.alarm_triggered = false) :
    process_beacon_data app_id sys rssi now id =
      ({ st := { sys.st with
           last_rssi := rssi, last_seen := now, weak_signal_start := none, state := .SAFE },
         msg_id_counter := sys.msg_id_counter }, []) := by
  simp [process_beacon_data, h, hz, ht]

/-- Safe reading on a non-`SAFE` record with the alarm latched: silence and
move to `SAFE`. -/
lemma m_safe_silence (app_id : Option String) (sys : MSys) (rssi now : Int) (id : String)
    (h : SAFE_RSSI_THRESHOLD ≤ rssi) (hz : sys.st.state ≠ MZone.SAFE)
    (ht : sys.st.alarm_triggered = true) :
    process_beacon_data app_id sys rssi now id =
      ({ st := { sys.st with
           last_rssi := rssi, last_seen := now, weak_signal_start := none,
           alarm_triggered := false, state := .SAFE },
         msg_id_counter := sys.msg_id_counter }, silence_alarm app_id) := by
  simp [process_beacon_data, h, hz, ht]

/-- First weak reading: start the debounce window, move to `WEAK`. -/
lemma m_unsafe_start (app_id : Option String) (sys : MSys) (rssi now : Int) (id : String)
    (h : rssi < SAFE_RSSI_THRESHOLD) (hws : sys.st.weak_signal_start = none) :
    process_beacon_data app_id sys rssi now id =
      ({ st := { sys.st with
           last_rssi := rssi, last_seen := now,
           weak_signal_start := some now, state := .WEAK },
         msg_id_counter := sys.msg_id_counter }, []) := by
  simp [process_beacon_data, not_le.mpr h, hws]

/-- Weak reading inside the (strict) debounce window: telemetry update only. -/
lemma m_unsafe_pending (app_id : Option String) (sys : MSys) (rssi now ws : Int) (id : String)
    (h : rssi < SAFE_RSSI_THRESHOLD) (hws : sys.st.weak_signal_start = some ws)
    (hd : now - ws ≤ DEBOUNCE_SECONDS) :
    process_beacon_data app_id sys rssi now id =
      ({ st := { sys.st with last_rssi := rssi, last_seen := now },
         msg_id_counter := sys.msg_id_counter }, []) := by
  simp [process_beacon_data, not_le.mpr h, hws, not_lt.mpr hd]

/-- Weak reading strictly past the debounce window, alarm not yet latched:
trigger, latch, move to `ALARM`. -/
lemma m_unsafe_trigger (app_id : Option String) (sys : MSys) (rssi now ws : Int) (id : String)
    (h : rssi < SAFE_RSSI_THRESHOLD) (hws : sys.st.weak_signal_start = some ws)
    (hd : DEBOUNCE_SECONDS < now - ws) (ht : sys.st.alarm_triggered = false) :
    process_beacon_data app_id sys rssi now id =
      ({ st := { sys.st with
           last_rssi := rssi, last_seen := now,
           alarm_triggered := true, state := .ALARM },
         msg_id_counter := (trigger_alarm app_id sys.msg_id_counter (some id)).2 },
       (trigger_alarm app_id sys.msg_id_counter (some id)).1) := by
  simp [process_beacon_data, not_le.mpr h, hws, hd, ht]

/-- Weak reading past the debounce window with the alarm already latched: no
downlink and no state change beyond telemetry. -/
lemma m_unsafe_stuck (app_id : Option String) (sys : MSys) (rssi now ws : Int) (id : String)
    (h : rssi < SAFE_RSSI_THRESHOLD) (hws : sys.st.weak_signal_start = some ws)
    (hd : DEBOUNCE_SECONDS < now - ws) (ht : sys.st.alarm_triggered = true) :
    process_beacon_data app_id sys rssi now id =
      ({ st := { sys.st with last_rssi := rssi, last_seen := now },
         msg_id_counter := sys.msg_id_counter }, []) := by
  simp [process_beacon_data, not_le.mpr h, hws, hd, ht]

/-! ### Invariants relating the alarm latch and the zone -/

/-- Invariant of the alarm_rules engine: a latched alarm means the zone is
`ALARM`, and an uninitialised beacon has no latched alarm. -/
def InvR (s : RSys) : Prop :=
  (s.st.alarm_active = true → s.st.zone = some SecurityZone.ALARM) ∧
  (s.st.initialized = false → s.st.alarm_active = false)

/-- One `check_alarm_conditions` evaluation preserves `InvR`. -/
lemma InvR_step (cfg : DevicesConfig) (minor_id : String) (s : RSys) (o : Obs)
    (h : InvR s) : InvR (stepR cfg minor_id s o).1 := by
  obtain ⟨hA, hI⟩ := h
  obtain ⟨rssi, gw, t⟩ := o
  by_cases hinit : s.st.initialized = false
  · simp only [stepR, check_startup cfg s.counter s.st rssi minor_id gw t hinit]
    exact ⟨by simp [hI hinit], by simp⟩
  · rw [Bool.not_eq_false] at hinit
    by_cases hsz : is_safe_zone cfg gw (zfill4 (pyUpper minor_id)) rssi = true
    · simp only [stepR, check_safe cfg s.counter s.st rssi minor_id gw t hinit hsz]
      exact ⟨by simp, by simp⟩
    · rw [Bool.not_eq_true] at hsz
      cases hws : s.st.weak_start with
      | none =>
        simp only [stepR, check_unsafe_first cfg s.counter s.st rssi minor_id gw t hinit hsz hws]
        exact ⟨by simp, by simp [hinit]⟩
      | some ws =>
        by_cases hd : PROXIMITY_DEBOUNCE_SECONDS ≤ t - ws
        · cases ha : s.st.alarm_active with
          | false =>
            simp only [stepR,
              check_unsafe_trigger cfg s.counter s.st rssi minor_id gw t ws hinit hsz hws hd ha]
            exact ⟨by simp, by simp [hinit]⟩
          | true =>
            simp only [stepR,
              check_unsafe_active cfg s.counter s.st rssi minor_id gw t ws hinit hsz hws hd ha]
            exact ⟨by simp, by simp [hinit]⟩
        · simp only [stepR,
            check_unsafe_pending cfg s.counter s.st rssi minor_id gw t ws hinit hsz hws
              (not_le.mp hd)]
          exact ⟨hA, hI⟩

/-- Invariant of the manager: a latched alarm means the record is in `WEAK`,
`ALARM` or `LOST` (never `SAFE` or `UNKNOWN`). -/
def InvM (m : MSys) : Prop :=
  m.st.alarm_triggered = true →
    m.st.state = MZone.WEAK ∨ m.st.state = MZone.ALARM ∨ m.st.state = MZone.LOST

/-- One manager interaction (observation or sweep) preserves `InvM`. -/
lemma InvM_step (app_id : Option String) (beacon_id : String) (m : MSys) (op : MOp)
    (h : InvM m) : InvM (mStep app_id beacon_id m op).1 := by
  cases op with
  | obs rssi now =>
    by_cases hsafe : SAFE_RSSI_THRESHOLD ≤ rssi
    · by_cases hz : m.st.state = MZone.SAFE
      · simp only [mStep, m_safe_steady app_id m rssi now beacon_id hsafe hz]
        exact fun ht => h ht
      · cases ht : m.st.alarm_triggered with
        | false =>
          simp only [mStep, m_safe_clear app_id m rssi now beacon_id hsafe hz ht]
          intro hc
          simp [ht] at hc
        | true =>
          simp only [mStep, m_safe_silence app_id m rssi now beacon_id hsafe hz ht]
          intro hc
          simp at hc
    · rw [not_le] at hsafe
      cases hws : m.st.weak_signal_start with
      | none =>
        simp only [mStep, m_unsafe_start app_id m rssi now beacon_id hsafe hws]
        exact fun _ => Or.inl rfl
      | some ws =>
        by_cases hd : DEBOUNCE_SECONDS < now - ws
        · cases ht : m.st.alarm_triggered with
          | false =>
            simp only [mStep, m_unsafe_trigger app_id m rssi now ws beacon_id hsafe hws hd ht]
            exact fun _ => Or.inr (Or.inl rfl)
          | true =>
            simp only [mStep, m_unsafe_stuck app_id m rssi now ws beacon_id hsafe hws hd ht]
            exact fun hc => h hc
        · rw [not_lt] at hd
          simp only [mStep, m_unsafe_pending app_id m rssi now ws beacon_id hsafe hws hd]
          exact fun hc => h hc
  | sweep now =>
    by_cases h0 : m.st.last_seen = 0
    · simpa [mStep, check_watchdog, h0] using h
    · by_cases hd : MAX_SILENCE_DURATION < now - m.st.last_seen
      · by_cases hL : m.st.state = MZone.LOST
        · simpa [mStep, check_watchdog, h0, hd, hL] using h
        · cases ht : m.st.alarm_triggered with
          | false =>
            simp only [mStep, check_watchdog, h0, if_neg h0, hd, if_pos hd, hL, ht]
            simp [hL, ht]
            exact fun _ => Or.inr (Or.inr rfl)
          | true =>
            simp only [mStep, check_watchdog, h0, if_neg h0, hd, if_pos hd, hL, ht]
            simp [hL, ht]
            exact fun _ => Or.inr (Or.inr rfl)
      · simpa [mStep, check_watchdog, h0, hd] using h

/-- C4 (amended): in the alarm_rules engine — which has no watchdog — every
reachable state with a latched alarm has `zone = ALARM`; in the
`AlarmManager` — where observation evaluations and watchdog sweeps interleave
— every reachable state with a latched alarm has state `WEAK`, `ALARM` or
`LOST` (the watchdog latches the alarm while setting `LOST`, and a later weak
reading re-enters `WEAK` with the latch still set, so `ALARM` alone is not an
invariant). -/
theorem C4_alarm_latch_zone (cfg : DevicesConfig) (minor_id : String)
    (app_id : Option String) (beacon_id : String) :
    (∀ s : RSys, ReachR cfg minor_id s → s.st.alarm_active = true →
        s.st.zone = some SecurityZone.ALARM) ∧
    (∀ m : MSys, ReachM app_id beacon_id m → m.st.alarm_triggered = true →
        m.st.state = MZone.WEAK ∨ m.st.state = MZone.ALARM ∨ m.st.state = MZone.LOST) := by
  constructor
  · have key : ∀ s : RSys, ReachR cfg minor_id s → InvR s := by
      intro s hs
      induction hs with
      | init => exact ⟨by simp [freshBeaconState], fun _ => rfl⟩
      | step rssi gw now hs ih => exact InvR_step cfg minor_id _ ⟨rssi, gw, now⟩ ih
    exact fun s hs => (key s hs).1
  · have key : ∀ m : MSys, ReachM app_id beacon_id m → InvM m := by
      intro m hm
      induction hm with
      | init => exact fun hc => by simp at hc
      | step op hm ih => exact InvM_step app_id beacon_id _ op ih
    exact key

/-- C4 counterexample: from the initial manager record, a safe observation at
`t = 1` followed by a watchdog sweep at `t = 200` reaches a state with
`alarm_triggered = true` and `state = LOST ≠ ALARM`, so "alarm_active
implies zone = ALARM" fails over sequences that include watchdog sweeps. -/
theorem C4_lost_counterexample :
    (mRun (some "app") "64AF" {} [MOp.obs (-50) 1, MOp.sweep 200]).1.st.alarm_triggered
      = true ∧
    (mRun (some "app") "64AF" {} [MOp.obs (-50) 1, MOp.sweep 200]).1.st.state
      = MZone.LOST ∧
    (mRun (some "app") "64AF" {} [MOp.obs (-50) 1, MOp.sweep 200]).1.st.state
      ≠ MZone.ALARM := by
  decide

/-- C4 witness: the amended invariant applied to concrete reachable states —
a debounced trigger run of the alarm_rules engine (latched, zone `ALARM`) and
the watchdog-latched manager state (which lands in the `LOST` disjunct). -/
theorem C4_alarm_latch_zone_witness :
    (stepR ⟨[], []⟩ "64af" (stepR ⟨[], []⟩ "64af" (stepR ⟨[], []⟩ "64af"
        ⟨freshBeaconState (zfill4 (pyUpper "64af")), 0⟩
        ⟨-90, none, 0⟩).1 ⟨-90, none, 10⟩).1 ⟨-90, none, 16⟩).1.st.zone
      = some SecurityZone.ALARM ∧
    ((mStep (some "app") "64AF" (mStep (some "app") "64AF" {}
        (MOp.obs (-50) 1)).1 (MOp.sweep 200)).1.st.state = MZone.WEAK ∨
     (mStep (some "app") "64AF" (mStep (some "app") "64AF" {}
        (MOp.obs (-50) 1)).1 (MOp.sweep 200)).1.st.state = MZone.ALARM ∨
     (mStep (some "app") "64AF" (mStep (some "app") "64AF" {}
        (MOp.obs (-50) 1)).1 (MOp.sweep 200)).1.st.state = MZone.LOST) :=
  ⟨(C4_alarm_latch_zone ⟨[], []⟩ "64af" (some "app") "64AF").1 _
      (ReachR.step (-90) none 16 (ReachR.step (-90) none 10
        (ReachR.step (-90) none 0 ReachR.init))) (by decide),
   (C4_alarm_latch_zone ⟨[], []⟩ "64af" (some "app") "64AF").2 _
      (ReachM.step (MOp.sweep 200) (ReachM.step (MOp.obs (-50) 1) ReachM.init))
      (by decide)⟩

/-- C5 (amended): when a gateway id maps to no configured floor, the
evaluation treats the detected zone as unknown and behaves exactly as if no
gateway had been reported at all: the wrong-floor test is skipped (unknown
zone defaults to SAFE-by-zone, not unsafe), so safety degrades to the pure
RSSI test; the evaluation is a total function of its inputs (it never
raises). -/
theorem C5_unknown_gateway (cfg : DevicesConfig) (ctr : Nat) (st : BeaconState)
    (rssi : Int) (minor_id : String) (now : Int) (g : String)
    (h : get_floor_by_device cfg g = none) :
    check_alarm_conditions cfg ctr st rssi minor_id (some g) now =
      check_alarm_conditions cfg ctr st rssi minor_id none now ∧
    is_wrong_floor cfg (some g) (zfill4 (pyUpper minor_id)) = false ∧
    is_safe_zone cfg (some g) (zfill4 (pyUpper minor_id)) rssi = !is_weak_signal rssi := by
  have hdf : detectionFloor cfg (some g) = none := by
    by_cases hg : g = "" <;> simp [detectionFloor, hg, h]
  have hwf : is_wrong_floor cfg (some g) (zfill4 (pyUpper minor_id)) = false := by
    simp [is_wrong_floor, detectionFloorId, hdf]
  refine ⟨?_, hwf, by simp [is_safe_zone, hwf]⟩
  have hnone : detectionFloor cfg (none : Option String) = none := rfl
  simp only [check_alarm_conditions, detectionFloorName, targetSensorEui, is_safe_zone,
    is_wrong_floor, detectionFloorId, hdf, hnone]

/-- C5 counterexample: topology is configured (a floor and a beacon with a
home floor), the observation's gateway maps to no known zone, the signal is
strong — and the evaluation returns `SAFE` with no downlink, instead of the
claimed default to unsafe-by-zone. -/
theorem C5_unknown_gateway_counterexample :
    get_floor_by_device
      ⟨[⟨"floor_1", "Floor 1", "70b3d5a4d31205ce", "gw01"⟩], [⟨"64AF", some "floor_1"⟩]⟩
      "deadbeef" = none ∧
    (check_alarm_conditions
      ⟨[⟨"floor_1", "Floor 1", "70b3d5a4d31205ce", "gw01"⟩], [⟨"64AF", some "floor_1"⟩]⟩
      0 ⟨"64AF", some .SAFE, -50, 0, none, false, true, "Floor 1"⟩
      (-50) "64af" (some "deadbeef") 10).result = "SAFE" ∧
    (check_alarm_conditions
      ⟨[⟨"floor_1", "Floor 1", "70b3d5a4d31205ce", "gw01"⟩], [⟨"64AF", some "floor_1"⟩]⟩
      0 ⟨"64AF", some .SAFE, -50, 0, none, false, true, "Floor 1"⟩
      (-50) "64af" (some "deadbeef") 10).commands = [] := by
  decide

/-- C5 witness: the amended statement at a concrete configuration and an
unknown gateway id. -/
theorem C5_unknown_gateway_witness :
    get_floor_by_device
      ⟨[⟨"floor_1", "Floor 1", "70b3d5a4d31205ce", "gw01"⟩], [⟨"64AF", some "floor_1"⟩]⟩
      "aabbcc" = none ∧
    is_safe_zone
      ⟨[⟨"floor_1", "Floor 1", "70b3d5a4d31205ce", "gw01"⟩], [⟨"64AF", some "floor_1"⟩]⟩
      (some "aabbcc") (zfill4 (pyUpper "64af")) (-50) = !is_weak_signal (-50) :=
  ⟨by decide,
   (C5_unknown_gateway
      ⟨[⟨"floor_1", "Floor 1", "70b3d5a4d31205ce", "gw01"⟩], [⟨"64AF", some "floor_1"⟩]⟩
      0 ⟨"64AF", some .SAFE, -50, 0, none, false, true, "Floor 1"⟩
      (-50) "64af" 10 "aabbcc" (by decide)).2.2⟩

/-- C7 counterexample: the search-beacon payload built by
`trigger_alarm_with_sequence` at counter 0 for minor `64AF` is
`AC00001064AF` — trigger-prefix, sequence byte, then the major id `0010`
before the minor id — which is not of the claimed form
trigger-prefix‖sequence-byte‖minor. -/
theorem C7_payload_counterexample :
    (trigger_alarm_with_sequence 0 "70b3d5a4d31205ce" "64AF").1.map Prod.snd =
      [CMD_VOLUME_HIGH, CMD_DURATION, "AC00001064AF"] ∧
    "AC00001064AF" ≠ "AC" ++ toHexByte 0 ++ zfill4 (pyUpper "64AF") := by
  decide

/-- C7 (amended): `AlarmManager.build_alarm_trigger_cmd` builds
trigger-prefix‖sequence-byte‖minor, while `trigger_alarm_with_sequence`
(alarm_rules) inserts the fixed major id `0010` between the sequence byte and
the minor; each builder bumps its own counter by exactly one mod 256 per
call, so successive payloads carry sequence bytes increasing by one with a
silent wrap from 255 to 0. -/
theorem C7_sequence_format (ctr : Nat) (minor other eui m2 : String) :
    (build_alarm_trigger_cmd ctr (some minor)).1 =
      "AC" ++ toHexByte ctr ++ zfill4 (pyUpper (if minor = "" then "0000" else minor)) ∧
    (build_alarm_trigger_cmd ctr (some minor)).2 = (ctr + 1) % 256 ∧
    (build_alarm_trigger_cmd (build_alarm_trigger_cmd ctr (some minor)).2 (some other)).1 =
      "AC" ++ toHexByte ((ctr + 1) % 256) ++
        zfill4 (pyUpper (if other = "" then "0000" else other)) ∧
    (build_alarm_trigger_cmd 255 (some m2)).2 = 0 ∧
    (trigger_alarm_with_sequence ctr eui minor).1.map Prod.snd =
      [CMD_VOLUME_HIGH, CMD_DURATION,
        "AC" ++ toHexByte ctr ++ BEACON_MAJOR ++ zfill4 (pyUpper minor)] ∧
    (trigger_alarm_with_sequence ctr eui minor).2 = (ctr + 1) % 256 := by
  refine ⟨rfl, rfl, rfl, rfl, ?_, rfl⟩
  simp [trigger_alarm_with_sequence, sendDownlink]

/-- With no reporting gateway the zone test is skipped and safety is the pure
RSSI test. -/
lemma is_safe_zone_none (cfg : DevicesConfig) (minor : String) (rssi : Int) :
    is_safe_zone cfg none minor rssi = !is_weak_signal rssi := by
  simp [is_safe_zone, is_wrong_floor, detectionFloorId, detectionFloor]

/-- Trigger counting distributes over concatenated command logs. -/
lemma countTriggers_append (l1 l2 : List (String × String)) :
    countTriggers (l1 ++ l2) = countTriggers l1 + countTriggers l2 := by
  simp [countTriggers, List.countP_append]

/-- Trigger counting distributes over concatenated manager command logs. -/
lemma countTriggersM_append (l1 l2 : List String) :
    countTriggersM (l1 ++ l2) = countTriggersM l1 + countTriggersM l2 := by
  simp [countTriggersM, List.countP_append]

/-- C1 counterexample: feeding `process_beacon_data` sustained unsafe
observations at `t = 0,…,5` leaves `weak_since = 0` and has issued no
trigger, although the `t = 5` evaluation is the first one with
`now - weak_since ≥ 5` (5 - 0 ≥ 5): the manager's debounce comparison is
strict, so the claimed trigger instant is wrong for it. -/
theorem C1_strict_debounce_counterexample :
    (mRun (some "app") "64AF" {} [MOp.obs (-90) 0, MOp.obs (-90) 1, MOp.obs (-90) 2,
        MOp.obs (-90) 3, MOp.obs (-90) 4, MOp.obs (-90) 5]).1.st.weak_signal_start
      = some 0 ∧
    countTriggersM (mRun (some "app") "64AF" {} [MOp.obs (-90) 0, MOp.obs (-90) 1,
        MOp.obs (-90) 2, MOp.obs (-90) 3, MOp.obs (-90) 4, MOp.obs (-90) 5]).2 = 0 ∧
    (5 : Int) - 0 ≥ 5 := by
  decide

/-- C1 (amended): starting from any quiescent tracked beacon (initialised, no
pending debounce, no latched alarm), a single unsafe observation at `t = 0`
followed by a safe one at `t = 3` never issues a trigger, in either engine;
unsafe observations sustained each second from `t = 0` to `t = 6` issue the
trigger sequence exactly once — `check_alarm_conditions` at the `t = 5`
evaluation, the first with `now - weak_since ≥ 5`, while
`process_beacon_data` has issued nothing by `t = 5` and triggers at `t = 6`,
the first evaluation with `now - weak_since` strictly greater than 5. -/
theorem C1_debounce (cfg : DevicesConfig) (minor_id : String) (st : BeaconState)
    (ctr : Nat) (mst : MBeaconState) (mctr : Nat) (app_id : Option String)
    (beacon_id : String) (rU rS : Int)
    (h1 : st.initialized = true) (hw : st.weak_start = none) (ha : st.alarm_active = false)
    (hmw : mst.weak_signal_start = none) (hmt : mst.alarm_triggered = false)
    (happ : appTruthy app_id = true)
    (hU : rU < SAFE_RSSI_THRESHOLD) (hS : SAFE_RSSI_THRESHOLD ≤ rS) :
    countTriggers (runR cfg minor_id ⟨st, ctr⟩ [⟨rU, none, 0⟩, ⟨rS, none, 3⟩]).2 = 0 ∧
    (runR cfg minor_id ⟨st, ctr⟩ [⟨rU, none, 0⟩]).1.st.weak_start = some 0 ∧
    countTriggers (runR cfg minor_id ⟨st, ctr⟩
      [⟨rU, none, 0⟩, ⟨rU, none, 1⟩, ⟨rU, none, 2⟩, ⟨rU, none, 3⟩, ⟨rU, none, 4⟩]).2 = 0 ∧
    countTriggers (runR cfg minor_id ⟨st, ctr⟩
      [⟨rU, none, 0⟩, ⟨rU, none, 1⟩, ⟨rU, none, 2⟩, ⟨rU, none, 3⟩, ⟨rU, none, 4⟩,
       ⟨rU, none, 5⟩]).2 = 1 ∧
    countTriggers (runR cfg minor_id ⟨st, ctr⟩
      [⟨rU, none, 0⟩, ⟨rU, none, 1⟩, ⟨rU, none, 2⟩, ⟨rU, none, 3⟩, ⟨rU, none, 4⟩,
       ⟨rU, none, 5⟩, ⟨rU, none, 6⟩]).2 = 1 ∧
    countTriggersM (mRun app_id beacon_id ⟨mst, mctr⟩ [.obs rU 0, .obs rS 3]).2 = 0 ∧
    (mRun app_id beacon_id ⟨mst, mctr⟩ [.obs rU 0]).1.st.weak_signal_start = some 0 ∧
    countTriggersM (mRun app_id beacon_id ⟨mst, mctr⟩
      [.obs rU 0, .obs rU 1, .obs rU 2, .obs rU 3, .obs rU 4, .obs rU 5]).2 = 0 ∧
    countTriggersM (mRun app_id beacon_id ⟨mst, mctr⟩
      [.obs rU 0, .obs rU 1, .obs rU 2, .obs rU 3, .obs rU 4, .obs rU 5,
       .obs rU 6]).2 = 1 := by
  have h2U : is_safe_zone cfg none (zfill4 (pyUpper minor_id)) rU = false := by
    simp [is_safe_zone_none, is_weak_signal, RSSI_THRESHOLD, hU]
  have h2S : is_safe_zone cfg none (zfill4 (pyUpper minor_id)) rS = true := by
    simp [is_safe_zone_none, is_weak_signal, RSSI_THRESHOLD, not_lt.mpr hS]
  have hU' : ¬SAFE_RSSI_THRESHOLD ≤ rU := not_le.mpr hU
  have hta : ∀ (c : Nat) (m : Option String),
      List.countP isTriggerHex (trigger_alarm app_id c m).1 = 1 :=
    fun c m => countTriggersM_trigger_alarm app_id c m happ
  refine ⟨?_, ?_, ?_, ?_, ?_, ?_, ?_, ?_, ?_⟩ <;>
    simp [runR, stepR, check_unsafe_first, check_unsafe_pending, check_unsafe_trigger,
      check_unsafe_active, check_safe, PROXIMITY_DEBOUNCE_SECONDS,
      h1, hw, ha, h2U, h2S, countTriggers_append, countTriggers, countTriggers_seq,
      trigger_alarm_with_sequence, sendDownlink, isTriggerHex_AC2, isTriggerHex_mute,
      CMD_VOLUME_HIGH, CMD_DURATION, isTriggerHex, String.data_append,
      mRun, mStep, m_unsafe_start, m_unsafe_pending, m_unsafe_trigger, m_safe_clear,
      DEBOUNCE_SECONDS, hmw, hmt, hU, hU', hS, happ,
      countTriggersM_append, countTriggersM, hta]

/-- C1 witness: the amended debounce behaviour at a concrete quiescent beacon
and concrete RSSI values. -/
theorem C1_debounce_witness :
    countTriggers (runR ⟨[], []⟩ "64af"
      ⟨{ beacon_id := "64AF", zone := some .SAFE, last_rssi := -50, last_seen := 0,
         weak_start := none, alarm_active := false, initialized := true,
         current_location := "Unknown Floor" }, 0⟩
      [⟨-90, none, 0⟩, ⟨-90, none, 1⟩, ⟨-90, none, 2⟩, ⟨-90, none, 3⟩, ⟨-90, none, 4⟩,
       ⟨-90, none, 5⟩]).2 = 1 ∧
    countTriggersM (mRun (some "app") "64AF" ⟨{}, 0⟩
      [.obs (-90) 0, .obs (-90) 1, .obs (-90) 2, .obs (-90) 3, .obs (-90) 4, .obs (-90) 5,
       .obs (-90) 6]).2 = 1 :=
  ⟨(C1_debounce ⟨[], []⟩ "64af"
      { beacon_id := "64AF", zone := some .SAFE, last_rssi := -50, last_seen := 0,
        weak_start := none, alarm_active := false, initialized := true,
        current_location := "Unknown Floor" } 0 {} 0 (some "app") "64AF" (-90) (-50)
      rfl rfl rfl rfl rfl (by decide) (by decide) (by decide)).2.2.2.1,
   (C1_debounce ⟨[], []⟩ "64af"
      { beacon_id := "64AF", zone := some .SAFE, last_rssi := -50, last_seen := 0,
        weak_start := none, alarm_active := false, initialized := true,
        current_location := "Unknown Floor" } 0 {} 0 (some "app") "64AF" (-90) (-50)
      rfl rfl rfl rfl rfl (by decide) (by decide) (by decide)).2.2.2.2.2.2.2.2⟩
